import Mathlib

/-!
Shallow embedding of `go/vt/topo/stats_conn.go` (the `StatsConn` facade over a
topology `Conn`), together with theorems checking the specification's claims
about it.

Modelling choices:
* Opaque Go interface values (`Version`, `DirEntry`, `KVInfo`, `LockDescriptor`,
  `WatchData`, `LeaderParticipation`, underlying error values) become `Nat`
  (wrapped in `Option` where Go code can return `nil`).
* `[]byte` becomes `List Nat`, `time.Duration` becomes `Int`.
* The underlying `Conn` is a record of pure functions giving, per input, the
  result/error pair that the underlying connection would return.
* Side effects — acquiring/releasing the read semaphore, recording a timing or
  read-wait sample, incrementing an error counter, and invoking an underlying
  connection method — are logged as an `Event` trace in chronological order,
  with Go `defer` LIFO ordering reflected in where the deferred events land.
* A call's `context.Context` is modelled by `ctx : Option Err`: `none` means
  `readSem.Acquire` succeeds, `some e` means it fails with error `e`
  (cancellation or elapsed deadline).
-/

namespace StatsConnModel

/-- Error values that a facade operation can return: the facade-built
read-only error (carrying the resolved operation name and the target path),
a context cancellation error surfaced by semaphore acquisition, or an
arbitrary error value produced by the underlying connection. -/
inductive Err where
  | readOnlyErr (op : String) (path : String)
  | ctxErr (n : Nat)
  | underlyingErr (n : Nat)
deriving DecidableEq, Repr

/-- Metrics label: the ordered pair (operation name, cell) used as `statsKey`. -/
structure StatsKey where
  op : String
  cell : String
deriving DecidableEq, Repr

/-- Lock variants, mirroring the Go `LockType` values used by `StatsConn`. -/
inductive LockType where
  | Blocking
  | NonBlocking
  | Named
deriving DecidableEq, Repr

/-- Observable side effects of one facade call, logged in chronological order. -/
inductive Event where
  | semAcquireOk
  | semRelease
  | recordReadWait (k : StatsKey)
  | recordTiming (k : StatsKey)
  | addError (k : StatsKey)
  | connCall (method : String)
deriving DecidableEq, Repr

/-- The underlying connection: a record of pure behaviours, one per `Conn`
method that `StatsConn` delegates to. Each returns the Go result tuple with
the trailing `error` as `Option Err`. -/
structure Conn where
  listDir : String → Bool → List Nat × Option Err
  create : String → List Nat → Option Nat × Option Err
  update : String → List Nat → Option Nat → Option Nat × Option Err
  get : String → List Nat × Option Nat × Option Err
  getVersion : String → Int → List Nat × Option Err
  list : String → List Nat × Option Err
  delete : String → Option Nat → Option Err
  lock : String → String → Option Nat × Option Err
  lockWithTTL : String → String → Int → Option Nat × Option Err
  lockName : String → String → Option Nat × Option Err
  tryLock : String → String → Option Nat × Option Err
  watch : String → Option Nat × Nat × Option Err
  watchRecursive : String → List Nat × Nat × Option Err
  newLeaderParticipation : String → String → Option Nat × Option Err

/-- The `StatsConn` facade state: cell label, wrapped connection, read-only
flag, and the injected read semaphore (kept as an opaque reference id; the
semaphore's dynamic behaviour is modelled by `ctx` and the event trace). -/
structure StatsConn where
  cell : String
  conn : Conn
  readOnly : Bool
  readSem : Nat

/-- Translation of `NewStatsConn`. -/
def NewStatsConn (cell : String) (conn : Conn) (readSem : Nat) : StatsConn :=
  { cell := cell, conn := conn, readOnly := false, readSem := readSem }

/-- Events appended when the underlying call returned `err`: the error-counter
increment fires only for a non-nil error. -/
def errEvents (k : StatsKey) : Option Err → List Event
  | some _ => [Event.addError k]
  | none => []

/-- Event trace of a gated read whose semaphore acquisition succeeded:
acquire, record the read-wait sample, invoke the underlying method `m`,
count a non-nil error, then (deferred, LIFO) record the execution-duration
sample and release the slot. -/
def readTrace (k : StatsKey) (m : String) (err : Option Err) : List Event :=
  [Event.semAcquireOk, Event.recordReadWait k, Event.connCall m]
    ++ errEvents k err ++ [Event.recordTiming k, Event.semRelease]

/-- Event trace of an ungated delegating call: invoke the underlying method
`m`, count a non-nil error, then (deferred) record the execution-duration
sample. -/
def writeTrace (k : StatsKey) (m : String) (err : Option Err) : List Event :=
  [Event.connCall m] ++ errEvents k err ++ [Event.recordTiming k]

/-- Event trace of `Watch`/`WatchRecursive`/`Close`: invoke the underlying
method and record only the execution-duration sample, never an error count. -/
def watchTrace (k : StatsKey) (m : String) : List Event :=
  [Event.connCall m, Event.recordTiming k]

/-- Translation of `StatsConn.ListDir`. -/
def StatsConn.listDir (st : StatsConn) (ctx : Option Err) (dirPath : String)
    (full : Bool) : (List Nat × Option Err) × List Event :=
  let statsKey : StatsKey := ⟨"ListDir", st.cell⟩
  match ctx with
  | some e => (([], some e), [])
  | none =>
    let r := st.conn.listDir dirPath full
    (r, readTrace statsKey "ListDir" r.2)

/-- Translation of `StatsConn.Create`: if the read-only flag is set, fail at
once with the read-only error (no events); otherwise delegate, count an
error, and record the timing sample. -/
def StatsConn.create (st : StatsConn) (filePath : String) (contents : List Nat) :
    (Option Nat × Option Err) × List Event :=
  let statsKey : StatsKey := ⟨"Create", st.cell⟩
  if st.readOnly then
    ((none, some (Err.readOnlyErr statsKey.op filePath)), [])
  else
    let r := st.conn.create filePath contents
    (r, writeTrace statsKey "Create" r.2)

/-- Translation of `StatsConn.Update`. -/
def StatsConn.update (st : StatsConn) (filePath : String) (contents : List Nat)
    (version : Option Nat) : (Option Nat × Option Err) × List Event :=
  let statsKey : StatsKey := ⟨"Update", st.cell⟩
  if st.readOnly then
    ((none, some (Err.readOnlyErr statsKey.op filePath)), [])
  else
    let r := st.conn.update filePath contents version
    (r, writeTrace statsKey "Update" r.2)

/-- Translation of `StatsConn.Get`. -/
def StatsConn.get (st : StatsConn) (ctx : Option Err) (filePath : String) :
    (List Nat × Option Nat × Option Err) × List Event :=
  let statsKey : StatsKey := ⟨"Get", st.cell⟩
  match ctx with
  | some e => (([], none, some e), [])
  | none =>
    let r := st.conn.get filePath
    (r, readTrace statsKey "Get" r.2.2)

/-- Translation of `StatsConn.GetVersion`. -/
def StatsConn.getVersion (st : StatsConn) (ctx : Option Err) (filePath : String)
    (version : Int) : (List Nat × Option Err) × List Event :=
  let statsKey : StatsKey := ⟨"GetVersion", st.cell⟩
  match ctx with
  | some e => (([], some e), [])
  | none =>
    let r := st.conn.getVersion filePath version
    (r, readTrace statsKey "GetVersion" r.2)

/-- Translation of `StatsConn.List`. -/
def StatsConn.list (st : StatsConn) (ctx : Option Err) (filePathPfx : String) :
    (List Nat × Option Err) × List Event :=
  let statsKey : StatsKey := ⟨"List", st.cell⟩
  match ctx with
  | some e => (([], some e), [])
  | none =>
    let r := st.conn.list filePathPfx
    (r, readTrace statsKey "List" r.2)

/-- Translation of `StatsConn.Delete`. -/
def StatsConn.delete (st : StatsConn) (filePath : String) (version : Option Nat) :
    Option Err × List Event :=
  let statsKey : StatsKey := ⟨"Delete", st.cell⟩
  if st.readOnly then
    (some (Err.readOnlyErr statsKey.op filePath), [])
  else
    let err := st.conn.delete filePath version
    (err, writeTrace statsKey "Delete" err)

/-- Translation of `StatsConn.internalLock`: resolve the metrics label
(`"LockName"` if Named, else `"LockWithTTL"` if `ttl ≠ 0`, else `"Lock"` —
the two overrides checked in that fixed order), check the read-only flag,
then dispatch on the lock type, count an error, and record the timing
sample under the resolved label. -/
def StatsConn.internalLock (st : StatsConn) (dirPath contents : String)
    (lockType : LockType) (ttl : Int) : (Option Nat × Option Err) × List Event :=
  let opName : String :=
    if lockType = LockType.Named then "LockName"
    else if ttl ≠ 0 then "LockWithTTL"
    else "Lock"
  let statsKey : StatsKey := ⟨opName, st.cell⟩
  if st.readOnly then
    ((none, some (Err.readOnlyErr statsKey.op dirPath)), [])
  else
    let called : String :=
      match lockType with
      | LockType.NonBlocking => "TryLock"
      | LockType.Named => "LockName"
      | LockType.Blocking => if ttl ≠ 0 then "LockWithTTL" else "Lock"
    let r :=
      match lockType with
      | LockType.NonBlocking => st.conn.tryLock dirPath contents
      | LockType.Named => st.conn.lockName dirPath contents
      | LockType.Blocking =>
        if ttl ≠ 0 then st.conn.lockWithTTL dirPath contents ttl
        else st.conn.lock dirPath contents
    (r, writeTrace statsKey called r.2)

/-- Translation of `StatsConn.Lock`. -/
def StatsConn.lock (st : StatsConn) (dirPath contents : String) :
    (Option Nat × Option Err) × List Event :=
  st.internalLock dirPath contents LockType.Blocking 0

/-- Translation of `StatsConn.LockWithTTL`. -/
def StatsConn.lockWithTTL (st : StatsConn) (dirPath contents : String) (ttl : Int) :
    (Option Nat × Option Err) × List Event :=
  st.internalLock dirPath contents LockType.Blocking ttl

/-- Translation of `StatsConn.LockName`. -/
def StatsConn.lockName (st : StatsConn) (dirPath contents : String) :
    (Option Nat × Option Err) × List Event :=
  st.internalLock dirPath contents LockType.Named 0

/-- Translation of `StatsConn.TryLock`. -/
def StatsConn.tryLock (st : StatsConn) (dirPath contents : String) :
    (Option Nat × Option Err) × List Event :=
  st.internalLock dirPath contents LockType.NonBlocking 0

/-- Translation of `StatsConn.Watch`: record only the execution-duration
sample around establishing the subscription; no error counting. -/
def StatsConn.watch (st : StatsConn) (filePath : String) :
    (Option Nat × Nat × Option Err) × List Event :=
  let statsKey : StatsKey := ⟨"Watch", st.cell⟩
  (st.conn.watch filePath, watchTrace statsKey "Watch")

/-- Translation of `StatsConn.WatchRecursive`: same shape as `Watch`. -/
def StatsConn.watchRecursive (st : StatsConn) (path : String) :
    (List Nat × Nat × Option Err) × List Event :=
  let statsKey : StatsKey := ⟨"WatchRecursive", st.cell⟩
  (st.conn.watchRecursive path, watchTrace statsKey "WatchRecursive")

/-- Translation of `StatsConn.NewLeaderParticipation`: delegate, count an
error, record the timing sample; no gate, no read-only check. -/
def StatsConn.newLeaderParticipation (st : StatsConn) (name id : String) :
    (Option Nat × Option Err) × List Event :=
  let statsKey : StatsKey := ⟨"NewLeaderParticipation", st.cell⟩
  let r := st.conn.newLeaderParticipation name id
  (r, writeTrace statsKey "NewLeaderParticipation" r.2)

/-- Translation of `StatsConn.Close`: delegate and record the timing sample
(`Close` has no error return). -/
def StatsConn.close (st : StatsConn) : List Event :=
  let statsKey : StatsKey := ⟨"Close", st.cell⟩
  watchTrace statsKey "Close"

/-- Translation of `StatsConn.SetReadOnly`: unconditional overwrite of the
read-only flag. -/
def StatsConn.setReadOnly (st : StatsConn) (readOnly : Bool) : StatsConn :=
  { st with readOnly := readOnly }

/-- Translation of `StatsConn.IsReadOnly`: plain read of the flag. -/
def StatsConn.isReadOnly (st : StatsConn) : Bool :=
  st.readOnly

/-- Predicate for a successful semaphore acquisition event. -/
def isAcquire : Event → Bool
  | Event.semAcquireOk => true
  | _ => false

/-- Predicate for a semaphore release event. -/
def isRelease : Event → Bool
  | Event.semRelease => true
  | _ => false

/-- Predicate for an execution-duration sample under label `k`. -/
def isTiming (k : StatsKey) : Event → Bool
  | Event.recordTiming k' => k' == k
  | _ => false

/-- Predicate for an error-counter increment under label `k`. -/
def isError (k : StatsKey) : Event → Bool
  | Event.addError k' => k' == k
  | _ => false

/-- Predicate for a read-wait sample under label `k`. -/
def isReadWait (k : StatsKey) : Event → Bool
  | Event.recordReadWait k' => k' == k
  | _ => false

/-- Number of successful semaphore acquisitions in a trace. -/
def acquireCount (t : List Event) : Nat :=
  t.countP isAcquire

/-- Number of semaphore releases in a trace. -/
def releaseCount (t : List Event) : Nat :=
  t.countP isRelease

/-- Names of the underlying connection methods invoked during a trace. -/
def connCalls (t : List Event) : List String :=
  t.filterMap fun e =>
    match e with
    | Event.connCall m => some m
    | _ => none

/-- Number of execution-duration samples recorded under label `k`. -/
def timingCount (k : StatsKey) (t : List Event) : Nat :=
  t.countP (isTiming k)

/-- Number of error-counter increments recorded under label `k`. -/
def errorCount (k : StatsKey) (t : List Event) : Nat :=
  t.countP (isError k)

/-- Number of read-wait samples recorded under label `k`. -/
def readWaitCount (k : StatsKey) (t : List Event) : Nat :=
  t.countP (isReadWait k)

/-!
Helper lemmas: event counts and call lists of the three trace shapes.
-/

lemma acquireCount_readTrace (k : StatsKey) (m : String) (err : Option Err) :
    acquireCount (readTrace k m err) = 1 := by
  cases err <;> simp [acquireCount, readTrace, errEvents, isAcquire]

lemma releaseCount_readTrace (k : StatsKey) (m : String) (err : Option Err) :
    releaseCount (readTrace k m err) = 1 := by
  cases err <;> simp [releaseCount, readTrace, errEvents, isRelease]

lemma head_readTrace (k : StatsKey) (m : String) (err : Option Err) :
    (readTrace k m err).head? = some Event.semAcquireOk := by
  cases err <;> rfl

lemma getLast_readTrace (k : StatsKey) (m : String) (err : Option Err) :
    (readTrace k m err).getLast? = some Event.semRelease := by
  cases err <;> rfl

lemma connCalls_readTrace (k : StatsKey) (m : String) (err : Option Err) :
    connCalls (readTrace k m err) = [m] := by
  cases err <;> simp [connCalls, readTrace, errEvents]

lemma timingCount_readTrace (k : StatsKey) (m : String) (err : Option Err) :
    timingCount k (readTrace k m err) = 1 := by
  cases err <;> simp [timingCount, readTrace, errEvents, isTiming]

lemma errorCount_readTrace (k : StatsKey) (m : String) (err : Option Err) :
    errorCount k (readTrace k m err) = if err.isSome then 1 else 0 := by
  cases err <;> simp [errorCount, readTrace, errEvents, isError]

lemma timingCount_writeTrace (k : StatsKey) (m : String) (err : Option Err) :
    timingCount k (writeTrace k m err) = 1 := by
  cases err <;> simp [timingCount, writeTrace, errEvents, isTiming]

lemma errorCount_writeTrace (k : StatsKey) (m : String) (err : Option Err) :
    errorCount k (writeTrace k m err) = if err.isSome then 1 else 0 := by
  cases err <;> simp [errorCount, writeTrace, errEvents, isError]

lemma connCalls_writeTrace (k : StatsKey) (m : String) (err : Option Err) :
    connCalls (writeTrace k m err) = [m] := by
  cases err <;> simp [connCalls, writeTrace, errEvents]

lemma acquireCount_writeTrace (k : StatsKey) (m : String) (err : Option Err) :
    acquireCount (writeTrace k m err) = 0 := by
  cases err <;> simp [acquireCount, writeTrace, errEvents, isAcquire]

lemma releaseCount_writeTrace (k : StatsKey) (m : String) (err : Option Err) :
    releaseCount (writeTrace k m err) = 0 := by
  cases err <;> simp [releaseCount, writeTrace, errEvents, isRelease]

lemma timingCount_watchTrace (k : StatsKey) (m : String) :
    timingCount k (watchTrace k m) = 1 := by
  simp [timingCount, watchTrace, isTiming]

lemma errorCount_watchTrace (k k' : StatsKey) (m : String) :
    errorCount k' (watchTrace k m) = 0 := by
  simp [errorCount, watchTrace, isError]

lemma acquireCount_watchTrace (k : StatsKey) (m : String) :
    acquireCount (watchTrace k m) = 0 := by
  simp [acquireCount, watchTrace, isAcquire]

lemma releaseCount_watchTrace (k : StatsKey) (m : String) :
    releaseCount (watchTrace k m) = 0 := by
  simp [releaseCount, watchTrace, isRelease]

/-- a sample underlying connection on which every call succeeds. -/
def sampleConn : Conn where
  listDir := fun _ _ => ([1, 2], none)
  create := fun _ _ => (some 1, none)
  update := fun _ _ _ => (some 2, none)
  get := fun _ => ([7], some 3, none)
  getVersion := fun _ _ => ([8], none)
  list := fun _ => ([9], none)
  delete := fun _ _ => none
  lock := fun _ _ => (some 10, none)
  lockWithTTL := fun _ _ _ => (some 11, none)
  lockName := fun _ _ => (some 12, none)
  tryLock := fun _ _ => (some 13, none)
  watch := fun _ => (some 14, 0, none)
  watchRecursive := fun _ => ([15], 1, none)
  newLeaderParticipation := fun _ _ => (some 16, none)

/-- a sample underlying connection on which every call fails with the same
underlying error value 42. -/
def failConn : Conn where
  listDir := fun _ _ => ([], some (Err.underlyingErr 42))
  create := fun _ _ => (none, some (Err.underlyingErr 42))
  update := fun _ _ _ => (none, some (Err.underlyingErr 42))
  get := fun _ => ([], none, some (Err.underlyingErr 42))
  getVersion := fun _ _ => ([], some (Err.underlyingErr 42))
  list := fun _ => ([], some (Err.underlyingErr 42))
  delete := fun _ _ => some (Err.underlyingErr 42)
  lock := fun _ _ => (none, some (Err.underlyingErr 42))
  lockWithTTL := fun _ _ _ => (none, some (Err.underlyingErr 42))
  lockName := fun _ _ => (none, some (Err.underlyingErr 42))
  tryLock := fun _ _ => (none, some (Err.underlyingErr 42))
  watch := fun _ => (none, 0, some (Err.underlyingErr 42))
  watchRecursive := fun _ => ([], 0, some (Err.underlyingErr 42))
  newLeaderParticipation := fun _ _ => (none, some (Err.underlyingErr 42))

/-- a facade over `sampleConn` with the read-only flag set. -/
def roSt : StatsConn := ⟨"zone1", sampleConn, true, 1⟩

/-- a facade over `sampleConn` in read-write mode. -/
def rwSt : StatsConn := ⟨"zone1", sampleConn, false, 1⟩

/-- a read-write facade over `failConn`. -/
def failSt : StatsConn := ⟨"zone1", failConn, false, 1⟩

/-- Claim C1: for every mutation operation (Create, Update, Delete, Lock,
LockWithTTL, LockName, TryLock), if the read-only flag is set when the
operation is invoked, the facade returns the read-only error carrying the
resolved operation name and the target path, and the event trace is empty —
the underlying connection is never invoked, no admission-gate slot is
consumed, and no metrics sample (duration or error count) is recorded. -/
theorem claim_C1_read_only_gating (st : StatsConn) (h : st.readOnly = true)
    (p c : String) (bs : List Nat) (v : Option Nat) (ttl : Int) :
    st.create p bs = ((none, some (Err.readOnlyErr "Create" p)), []) ∧
    st.update p bs v = ((none, some (Err.readOnlyErr "Update" p)), []) ∧
    st.delete p v = (some (Err.readOnlyErr "Delete" p), []) ∧
    st.lock p c = ((none, some (Err.readOnlyErr "Lock" p)), []) ∧
    st.lockWithTTL p c ttl =
      ((none, some (Err.readOnlyErr (if ttl ≠ 0 then "LockWithTTL" else "Lock") p)), []) ∧
    st.lockName p c = ((none, some (Err.readOnlyErr "LockName" p)), []) ∧
    st.tryLock p c = ((none, some (Err.readOnlyErr "Lock" p)), []) := by
  refine ⟨?_, ?_, ?_, ?_, ?_, ?_, ?_⟩ <;>
    simp [StatsConn.create, StatsConn.update, StatsConn.delete, StatsConn.lock,
      StatsConn.lockWithTTL, StatsConn.lockName, StatsConn.tryLock,
      StatsConn.internalLock, h]

/-- Witness for C1 at the concrete read-only facade `roSt`. -/
theorem claim_C1_read_only_gating_witness :
    roSt.readOnly = true ∧
    (roSt.create "/p" [1] = ((none, some (Err.readOnlyErr "Create" "/p")), []) ∧
    roSt.update "/p" [1] (some 2) = ((none, some (Err.readOnlyErr "Update" "/p")), []) ∧
    roSt.delete "/p" (some 2) = (some (Err.readOnlyErr "Delete" "/p"), []) ∧
    roSt.lock "/p" "me" = ((none, some (Err.readOnlyErr "Lock" "/p")), []) ∧
    roSt.lockWithTTL "/p" "me" 3 =
      ((none, some (Err.readOnlyErr (if (3 : Int) ≠ 0 then "LockWithTTL" else "Lock") "/p")), []) ∧
    roSt.lockName "/p" "me" = ((none, some (Err.readOnlyErr "LockName" "/p")), []) ∧
    roSt.tryLock "/p" "me" = ((none, some (Err.readOnlyErr "Lock" "/p")), [])) :=
  ⟨rfl, claim_C1_read_only_gating roSt rfl "/p" "me" [1] (some 2) 3⟩

/-- Claim C2: `internalLock` resolves the metrics label with base name "Lock",
overridden to "LockName" for the Named kind (checked first, so Named wins for
any ttl) and to "LockWithTTL" for nonzero ttl; it routes NonBlocking to the
underlying TryLock, Named to the underlying LockName, and the default kind to
LockWithTTL when ttl is nonzero and to Lock otherwise; the public TryLock
entry point produces "Lock" labeling while calling the non-blocking
underlying operation. -/
theorem claim_C2_lock_dispatch (st : StatsConn) (h : st.readOnly = false)
    (p c : String) (ttl : Int) :
    connCalls (st.internalLock p c LockType.NonBlocking ttl).2 = ["TryLock"] ∧
    connCalls (st.internalLock p c LockType.Named ttl).2 = ["LockName"] ∧
    (ttl ≠ 0 → connCalls (st.internalLock p c LockType.Blocking ttl).2 = ["LockWithTTL"]) ∧
    connCalls (st.internalLock p c LockType.Blocking 0).2 = ["Lock"] ∧
    timingCount ⟨"LockName", st.cell⟩ (st.internalLock p c LockType.Named ttl).2 = 1 ∧
    (ttl ≠ 0 →
      timingCount ⟨"LockWithTTL", st.cell⟩ (st.internalLock p c LockType.Blocking ttl).2 = 1) ∧
    timingCount ⟨"Lock", st.cell⟩ (st.internalLock p c LockType.Blocking 0).2 = 1 ∧
    timingCount ⟨"Lock", st.cell⟩ (st.tryLock p c).2 = 1 ∧
    connCalls (st.tryLock p c).2 = ["TryLock"] := by
  refine ⟨?_, ?_, fun httl => ?_, ?_, ?_, fun httl => ?_, ?_, ?_, ?_⟩ <;>
    simp_all [StatsConn.internalLock, StatsConn.tryLock, h,
      connCalls_writeTrace, timingCount_writeTrace]

/-- Witness for C2 at the concrete read-write facade `rwSt` with ttl = 5. -/
theorem claim_C2_lock_dispatch_witness :
    rwSt.readOnly = false ∧
    (connCalls (rwSt.internalLock "/p" "me" LockType.NonBlocking 5).2 = ["TryLock"] ∧
    connCalls (rwSt.internalLock "/p" "me" LockType.Named 5).2 = ["LockName"] ∧
    ((5 : Int) ≠ 0 →
      connCalls (rwSt.internalLock "/p" "me" LockType.Blocking 5).2 = ["LockWithTTL"]) ∧
    connCalls (rwSt.internalLock "/p" "me" LockType.Blocking 0).2 = ["Lock"] ∧
    timingCount ⟨"LockName", rwSt.cell⟩ (rwSt.internalLock "/p" "me" LockType.Named 5).2 = 1 ∧
    ((5 : Int) ≠ 0 →
      timingCount ⟨"LockWithTTL", rwSt.cell⟩
        (rwSt.internalLock "/p" "me" LockType.Blocking 5).2 = 1) ∧
    timingCount ⟨"Lock", rwSt.cell⟩ (rwSt.internalLock "/p" "me" LockType.Blocking 0).2 = 1 ∧
    timingCount ⟨"Lock", rwSt.cell⟩ (rwSt.tryLock "/p" "me").2 = 1 ∧
    connCalls (rwSt.tryLock "/p" "me").2 = ["TryLock"]) :=
  ⟨rfl, claim_C2_lock_dispatch rwSt rfl "/p" "me" 5⟩

/-- Claim C3: every read operation (ListDir, Get, GetVersion, List) leaves the
gate's net count unchanged (acquisitions equal releases on every exit path),
and when acquisition succeeds it acquires exactly one slot as its first
event — before the single delegation to the underlying connection — and
releases exactly one slot as its last event, after completion, whether the
delegated call succeeds or fails. -/
theorem claim_C3_read_gate_balance (st : StatsConn) (ctx : Option Err)
    (p : String) (full : Bool) (v : Int) :
    acquireCount (st.listDir ctx p full).2 = releaseCount (st.listDir ctx p full).2 ∧
    acquireCount (st.get ctx p).2 = releaseCount (st.get ctx p).2 ∧
    acquireCount (st.getVersion ctx p v).2 = releaseCount (st.getVersion ctx p v).2 ∧
    acquireCount (st.list ctx p).2 = releaseCount (st.list ctx p).2 ∧
    (acquireCount (st.listDir none p full).2 = 1 ∧
      releaseCount (st.listDir none p full).2 = 1 ∧
      (st.listDir none p full).2.head? = some Event.semAcquireOk ∧
      (st.listDir none p full).2.getLast? = some Event.semRelease ∧
      connCalls (st.listDir none p full).2 = ["ListDir"]) ∧
    (acquireCount (st.get none p).2 = 1 ∧
      releaseCount (st.get none p).2 = 1 ∧
      (st.get none p).2.head? = some Event.semAcquireOk ∧
      (st.get none p).2.getLast? = some Event.semRelease ∧
      connCalls (st.get none p).2 = ["Get"]) ∧
    (acquireCount (st.getVersion none p v).2 = 1 ∧
      releaseCount (st.getVersion none p v).2 = 1 ∧
      (st.getVersion none p v).2.head? = some Event.semAcquireOk ∧
      (st.getVersion none p v).2.getLast? = some Event.semRelease ∧
      connCalls (st.getVersion none p v).2 = ["GetVersion"]) ∧
    (acquireCount (st.list none p).2 = 1 ∧
      releaseCount (st.list none p).2 = 1 ∧
      (st.list none p).2.head? = some Event.semAcquireOk ∧
      (st.list none p).2.getLast? = some Event.semRelease ∧
      connCalls (st.list none p).2 = ["List"]) := by
  refine ⟨?_, ?_, ?_, ?_, ?_, ?_, ?_, ?_⟩
  · cases ctx
    · simp [StatsConn.listDir, acquireCount_readTrace, releaseCount_readTrace]
    · rfl
  · cases ctx
    · simp [StatsConn.get, acquireCount_readTrace, releaseCount_readTrace]
    · rfl
  · cases ctx
    · simp [StatsConn.getVersion, acquireCount_readTrace, releaseCount_readTrace]
    · rfl
  · cases ctx
    · simp [StatsConn.list, acquireCount_readTrace, releaseCount_readTrace]
    · rfl
  · simp [StatsConn.listDir, acquireCount_readTrace, releaseCount_readTrace,
      head_readTrace, getLast_readTrace, connCalls_readTrace]
  · simp [StatsConn.get, acquireCount_readTrace, releaseCount_readTrace,
      head_readTrace, getLast_readTrace, connCalls_readTrace]
  · simp [StatsConn.getVersion, acquireCount_readTrace, releaseCount_readTrace,
      head_readTrace, getLast_readTrace, connCalls_readTrace]
  · simp [StatsConn.list, acquireCount_readTrace, releaseCount_readTrace,
      head_readTrace, getLast_readTrace, connCalls_readTrace]

/-- Claim C4: for every read operation, if admission-gate acquisition fails
with the caller's cancellation error `e`, the facade returns exactly that
error (with nil results) and an empty event trace — the underlying connection
is never called, no gate slot is held, and no metrics sample is recorded. -/
theorem claim_C4_read_cancellation (st : StatsConn) (e : Err) (p : String)
    (full : Bool) (v : Int) :
    st.listDir (some e) p full = (([], some e), []) ∧
    st.get (some e) p = (([], none, some e), []) ∧
    st.getVersion (some e) p v = (([], some e), []) ∧
    st.list (some e) p = (([], some e), []) :=
  ⟨rfl, rfl, rfl, rfl⟩

/-- Counterexample to claim C5 as stated: on `failSt`, `Watch` returns a
non-nil error from the underlying connection, yet its trace holds only a
connection call and a duration sample — the error-count increment the claim
requires for Watch is never recorded. -/
theorem claim_C5_counterexample :
    (failSt.watch "/p").1.2.2 = some (Err.underlyingErr 42) ∧
    (failSt.watch "/p").2 =
      [Event.connCall "Watch", Event.recordTiming ⟨"Watch", "zone1"⟩] ∧
    errorCount ⟨"Watch", "zone1"⟩ (failSt.watch "/p").2 = 0 :=
  ⟨rfl, rfl, rfl⟩

/-- Claim C5 (amended): every call that reaches the underlying connection
records exactly one execution-duration sample labeled (operation name, cell);
every such call returning a non-nil underlying error additionally records
exactly one error-count increment under the same label — including the
would-block refusal of the non-blocking lock variant — except Watch and
WatchRecursive, which record only the duration sample and never an
error-count increment. -/
theorem claim_C5_metrics (st : StatsConn) (h : st.readOnly = false)
    (p c n i : String) (full : Bool) (v : Int) (bs : List Nat)
    (ver : Option Nat) (ttl : Int) :
    (timingCount ⟨"ListDir", st.cell⟩ (st.listDir none p full).2 = 1 ∧
      errorCount ⟨"ListDir", st.cell⟩ (st.listDir none p full).2 =
        if (st.conn.listDir p full).2.isSome then 1 else 0) ∧
    (timingCount ⟨"Get", st.cell⟩ (st.get none p).2 = 1 ∧
      errorCount ⟨"Get", st.cell⟩ (st.get none p).2 =
        if (st.conn.get p).2.2.isSome then 1 else 0) ∧
    (timingCount ⟨"GetVersion", st.cell⟩ (st.getVersion none p v).2 = 1 ∧
      errorCount ⟨"GetVersion", st.cell⟩ (st.getVersion none p v).2 =
        if (st.conn.getVersion p v).2.isSome then 1 else 0) ∧
    (timingCount ⟨"List", st.cell⟩ (st.list none p).2 = 1 ∧
      errorCount ⟨"List", st.cell⟩ (st.list none p).2 =
        if (st.conn.list p).2.isSome then 1 else 0) ∧
    (timingCount ⟨"Create", st.cell⟩ (st.create p bs).2 = 1 ∧
      errorCount ⟨"Create", st.cell⟩ (st.create p bs).2 =
        if (st.conn.create p bs).2.isSome then 1 else 0) ∧
    (timingCount ⟨"Update", st.cell⟩ (st.update p bs ver).2 = 1 ∧
      errorCount ⟨"Update", st.cell⟩ (st.update p bs ver).2 =
        if (st.conn.update p bs ver).2.isSome then 1 else 0) ∧
    (timingCount ⟨"Delete", st.cell⟩ (st.delete p ver).2 = 1 ∧
      errorCount ⟨"Delete", st.cell⟩ (st.delete p ver).2 =
        if (st.conn.delete p ver).isSome then 1 else 0) ∧
    (timingCount ⟨"Lock", st.cell⟩ (st.lock p c).2 = 1 ∧
      errorCount ⟨"Lock", st.cell⟩ (st.lock p c).2 =
        if (st.conn.lock p c).2.isSome then 1 else 0) ∧
    (ttl ≠ 0 →
      timingCount ⟨"LockWithTTL", st.cell⟩ (st.lockWithTTL p c ttl).2 = 1 ∧
      errorCount ⟨"LockWithTTL", st.cell⟩ (st.lockWithTTL p c ttl).2 =
        if (st.conn.lockWithTTL p c ttl).2.isSome then 1 else 0) ∧
    (timingCount ⟨"LockName", st.cell⟩ (st.lockName p c).2 = 1 ∧
      errorCount ⟨"LockName", st.cell⟩ (st.lockName p c).2 =
        if (st.conn.lockName p c).2.isSome then 1 else 0) ∧
    (timingCount ⟨"Lock", st.cell⟩ (st.tryLock p c).2 = 1 ∧
      errorCount ⟨"Lock", st.cell⟩ (st.tryLock p c).2 =
        if (st.conn.tryLock p c).2.isSome then 1 else 0) ∧
    (timingCount ⟨"NewLeaderParticipation", st.cell⟩ (st.newLeaderParticipation n i).2 = 1 ∧
      errorCount ⟨"NewLeaderParticipation", st.cell⟩ (st.newLeaderParticipation n i).2 =
        if (st.conn.newLeaderParticipation n i).2.isSome then 1 else 0) ∧
    (timingCount ⟨"Watch", st.cell⟩ (st.watch p).2 = 1 ∧
      errorCount ⟨"Watch", st.cell⟩ (st.watch p).2 = 0) ∧
    (timingCount ⟨"WatchRecursive", st.cell⟩ (st.watchRecursive p).2 = 1 ∧
      errorCount ⟨"WatchRecursive", st.cell⟩ (st.watchRecursive p).2 = 0) ∧
    timingCount ⟨"Close", st.cell⟩ st.close = 1 := by
  refine ⟨?_, ?_, ?_, ?_, ?_, ?_, ?_, ?_, ?_, ?_, ?_, ?_, ?_, ?_, ?_⟩ <;>
    first
    | (intro httl
       simp [StatsConn.lockWithTTL, StatsConn.internalLock, h, httl,
         timingCount_writeTrace, errorCount_writeTrace])
    | simp [StatsConn.listDir, StatsConn.get, StatsConn.getVersion, StatsConn.list,
        StatsConn.create, StatsConn.update, StatsConn.delete, StatsConn.lock,
        StatsConn.lockWithTTL, StatsConn.lockName, StatsConn.tryLock,
        StatsConn.internalLock, StatsConn.watch, StatsConn.watchRecursive,
        StatsConn.newLeaderParticipation, StatsConn.close, h,
        timingCount_readTrace, errorCount_readTrace, timingCount_writeTrace,
        errorCount_writeTrace, timingCount_watchTrace, errorCount_watchTrace]

/-- Witness for the amended C5 at the concrete read-write facade `rwSt`. -/
theorem claim_C5_metrics_witness :
    rwSt.readOnly = false ∧
    ((timingCount ⟨"ListDir", rwSt.cell⟩ (rwSt.listDir none "/p" true).2 = 1 ∧
      errorCount ⟨"ListDir", rwSt.cell⟩ (rwSt.listDir none "/p" true).2 =
        if (rwSt.conn.listDir "/p" true).2.isSome then 1 else 0) ∧
    (timingCount ⟨"Get", rwSt.cell⟩ (rwSt.get none "/p").2 = 1 ∧
      errorCount ⟨"Get", rwSt.cell⟩ (rwSt.get none "/p").2 =
        if (rwSt.conn.get "/p").2.2.isSome then 1 else 0) ∧
    (timingCount ⟨"GetVersion", rwSt.cell⟩ (rwSt.getVersion none "/p" 4).2 = 1 ∧
      errorCount ⟨"GetVersion", rwSt.cell⟩ (rwSt.getVersion none "/p" 4).2 =
        if (rwSt.conn.getVersion "/p" 4).2.isSome then 1 else 0) ∧
    (timingCount ⟨"List", rwSt.cell⟩ (rwSt.list none "/p").2 = 1 ∧
      errorCount ⟨"List", rwSt.cell⟩ (rwSt.list none "/p").2 =
        if (rwSt.conn.list "/p").2.isSome then 1 else 0) ∧
    (timingCount ⟨"Create", rwSt.cell⟩ (rwSt.create "/p" [1]).2 = 1 ∧
      errorCount ⟨"Create", rwSt.cell⟩ (rwSt.create "/p" [1]).2 =
        if (rwSt.conn.create "/p" [1]).2.isSome then 1 else 0) ∧
    (timingCount ⟨"Update", rwSt.cell⟩ (rwSt.update "/p" [1] (some 2)).2 = 1 ∧
      errorCount ⟨"Update", rwSt.cell⟩ (rwSt.update "/p" [1] (some 2)).2 =
        if (rwSt.conn.update "/p" [1] (some 2)).2.isSome then 1 else 0) ∧
    (timingCount ⟨"Delete", rwSt.cell⟩ (rwSt.delete "/p" (some 2)).2 = 1 ∧
      errorCount ⟨"Delete", rwSt.cell⟩ (rwSt.delete "/p" (some 2)).2 =
        if (rwSt.conn.delete "/p" (some 2)).isSome then 1 else 0) ∧
    (timingCount ⟨"Lock", rwSt.cell⟩ (rwSt.lock "/p" "me").2 = 1 ∧
      errorCount ⟨"Lock", rwSt.cell⟩ (rwSt.lock "/p" "me").2 =
        if (rwSt.conn.lock "/p" "me").2.isSome then 1 else 0) ∧
    ((5 : Int) ≠ 0 →
      timingCount ⟨"LockWithTTL", rwSt.cell⟩ (rwSt.lockWithTTL "/p" "me" 5).2 = 1 ∧
      errorCount ⟨"LockWithTTL", rwSt.cell⟩ (rwSt.lockWithTTL "/p" "me" 5).2 =
        if (rwSt.conn.lockWithTTL "/p" "me" 5).2.isSome then 1 else 0) ∧
    (timingCount ⟨"LockName", rwSt.cell⟩ (rwSt.lockName "/p" "me").2 = 1 ∧
      errorCount ⟨"LockName", rwSt.cell⟩ (rwSt.lockName "/p" "me").2 =
        if (rwSt.conn.lockName "/p" "me").2.isSome then 1 else 0) ∧
    (timingCount ⟨"Lock", rwSt.cell⟩ (rwSt.tryLock "/p" "me").2 = 1 ∧
      errorCount ⟨"Lock", rwSt.cell⟩ (rwSt.tryLock "/p" "me").2 =
        if (rwSt.conn.tryLock "/p" "me").2.isSome then 1 else 0) ∧
    (timingCount ⟨"NewLeaderParticipation", rwSt.cell⟩
        (rwSt.newLeaderParticipation "nm" "id").2 = 1 ∧
      errorCount ⟨"NewLeaderParticipation", rwSt.cell⟩
        (rwSt.newLeaderParticipation "nm" "id").2 =
        if (rwSt.conn.newLeaderParticipation "nm" "id").2.isSome then 1 else 0) ∧
    (timingCount ⟨"Watch", rwSt.cell⟩ (rwSt.watch "/p").2 = 1 ∧
      errorCount ⟨"Watch", rwSt.cell⟩ (rwSt.watch "/p").2 = 0) ∧
    (timingCount ⟨"WatchRecursive", rwSt.cell⟩ (rwSt.watchRecursive "/p").2 = 1 ∧
      errorCount ⟨"WatchRecursive", rwSt.cell⟩ (rwSt.watchRecursive "/p").2 = 0) ∧
    timingCount ⟨"Close", rwSt.cell⟩ rwSt.close = 1) :=
  ⟨rfl, claim_C5_metrics rwSt rfl "/p" "me" "nm" "id" true 4 [1] (some 2) 5⟩

/-- Claim C6: the facade is a transparent passthrough — every operation that
delegates to the underlying connection returns the underlying result and
error values unchanged (for `LockWithTTL` with ttl 0 the underlying `Lock`
result, matching the default dispatch branch). -/
theorem claim_C6_passthrough (st : StatsConn) (h : st.readOnly = false)
    (p c n i : String) (full : Bool) (v : Int) (bs : List Nat)
    (ver : Option Nat) (ttl : Int) :
    (st.listDir none p full).1 = st.conn.listDir p full ∧
    (st.get none p).1 = st.conn.get p ∧
    (st.getVersion none p v).1 = st.conn.getVersion p v ∧
    (st.list none p).1 = st.conn.list p ∧
    (st.create p bs).1 = st.conn.create p bs ∧
    (st.update p bs ver).1 = st.conn.update p bs ver ∧
    (st.delete p ver).1 = st.conn.delete p ver ∧
    (st.lock p c).1 = st.conn.lock p c ∧
    (ttl ≠ 0 → (st.lockWithTTL p c ttl).1 = st.conn.lockWithTTL p c ttl) ∧
    (st.lockWithTTL p c 0).1 = st.conn.lock p c ∧
    (st.lockName p c).1 = st.conn.lockName p c ∧
    (st.tryLock p c).1 = st.conn.tryLock p c ∧
    (st.watch p).1 = st.conn.watch p ∧
    (st.watchRecursive p).1 = st.conn.watchRecursive p ∧
    (st.newLeaderParticipation n i).1 = st.conn.newLeaderParticipation n i := by
  refine ⟨?_, ?_, ?_, ?_, ?_, ?_, ?_, ?_, ?_, ?_, ?_, ?_, ?_, ?_, ?_⟩ <;>
    first
    | (intro httl
       simp [StatsConn.lockWithTTL, StatsConn.internalLock, h, httl])
    | simp [StatsConn.listDir, StatsConn.get, StatsConn.getVersion, StatsConn.list,
        StatsConn.create, StatsConn.update, StatsConn.delete, StatsConn.lock,
        StatsConn.lockWithTTL, StatsConn.lockName, StatsConn.tryLock,
        StatsConn.internalLock, StatsConn.watch, StatsConn.watchRecursive,
        StatsConn.newLeaderParticipation, h]

/-- Witness for C6 at the concrete read-write facade `rwSt`; in particular a
successful Get over `sampleConn` yields exactly the underlying
(bytes, version, nil) triple. -/
theorem claim_C6_passthrough_witness :
    rwSt.readOnly = false ∧
    ((rwSt.listDir none "/a/b" true).1 = rwSt.conn.listDir "/a/b" true ∧
    (rwSt.get none "/a/b").1 = rwSt.conn.get "/a/b" ∧
    (rwSt.getVersion none "/a/b" 4).1 = rwSt.conn.getVersion "/a/b" 4 ∧
    (rwSt.list none "/a/b").1 = rwSt.conn.list "/a/b" ∧
    (rwSt.create "/a/b" [1]).1 = rwSt.conn.create "/a/b" [1] ∧
    (rwSt.update "/a/b" [1] (some 2)).1 = rwSt.conn.update "/a/b" [1] (some 2) ∧
    (rwSt.delete "/a/b" (some 2)).1 = rwSt.conn.delete "/a/b" (some 2) ∧
    (rwSt.lock "/a/b" "me").1 = rwSt.conn.lock "/a/b" "me" ∧
    ((5 : Int) ≠ 0 → (rwSt.lockWithTTL "/a/b" "me" 5).1 = rwSt.conn.lockWithTTL "/a/b" "me" 5) ∧
    (rwSt.lockWithTTL "/a/b" "me" 0).1 = rwSt.conn.lock "/a/b" "me" ∧
    (rwSt.lockName "/a/b" "me").1 = rwSt.conn.lockName "/a/b" "me" ∧
    (rwSt.tryLock "/a/b" "me").1 = rwSt.conn.tryLock "/a/b" "me" ∧
    (rwSt.watch "/a/b").1 = rwSt.conn.watch "/a/b" ∧
    (rwSt.watchRecursive "/a/b").1 = rwSt.conn.watchRecursive "/a/b" ∧
    (rwSt.newLeaderParticipation "nm" "id").1 = rwSt.conn.newLeaderParticipation "nm" "id") :=
  ⟨rfl, claim_C6_passthrough rwSt rfl "/a/b" "me" "nm" "id" true 4 [1] (some 2) 5⟩

/-- Claim C7: Watch, WatchRecursive, NewLeaderParticipation, and Close never
interact with the admission gate (their traces hold no acquisition or
release), and each produces the identical outcome whether the read-only flag
is set to true or to false. -/
theorem claim_C7_ungated_ops (st : StatsConn) (p n i : String) :
    acquireCount (st.watch p).2 = 0 ∧ releaseCount (st.watch p).2 = 0 ∧
    acquireCount (st.watchRecursive p).2 = 0 ∧
    releaseCount (st.watchRecursive p).2 = 0 ∧
    acquireCount (st.newLeaderParticipation n i).2 = 0 ∧
    releaseCount (st.newLeaderParticipation n i).2 = 0 ∧
    acquireCount st.close = 0 ∧ releaseCount st.close = 0 ∧
    (st.setReadOnly true).watch p = (st.setReadOnly false).watch p ∧
    (st.setReadOnly true).watchRecursive p = (st.setReadOnly false).watchRecursive p ∧
    (st.setReadOnly true).newLeaderParticipation n i =
      (st.setReadOnly false).newLeaderParticipation n i ∧
    (st.setReadOnly true).close = (st.setReadOnly false).close := by
  refine ⟨?_, ?_, ?_, ?_, ?_, ?_, ?_, ?_, rfl, rfl, rfl, rfl⟩ <;>
    simp [StatsConn.watch, StatsConn.watchRecursive, StatsConn.newLeaderParticipation,
      StatsConn.close, acquireCount_watchTrace, releaseCount_watchTrace,
      acquireCount_writeTrace, releaseCount_writeTrace]

/-- Claim C8: SetReadOnly unconditionally overwrites the flag and IsReadOnly
returns the last value set — setting true twice leaves it true, toggling
false, true, false ends false — and SetReadOnly changes no facade state other
than the flag (cell, connection, and semaphore reference are unchanged). -/
theorem claim_C8_toggle (st : StatsConn) (b : Bool) :
    ((st.setReadOnly true).setReadOnly true).isReadOnly = true ∧
    (((st.setReadOnly false).setReadOnly true).setReadOnly false).isReadOnly = false ∧
    (st.setReadOnly b).isReadOnly = b ∧
    (st.setReadOnly b).cell = st.cell ∧
    (st.setReadOnly b).conn = st.conn ∧
    (st.setReadOnly b).readSem = st.readSem :=
  ⟨rfl, rfl, rfl, rfl, rfl, rfl⟩

/-- Claim C9: a freshly constructed facade starts in read-write mode — for
every cell, connection, and semaphore passed to `NewStatsConn`, IsReadOnly
returns false on the result (whose fields are exactly the arguments), and a
mutation on the fresh facade is not rejected locally: it reaches the
underlying connection. -/
theorem claim_C9_fresh_read_write (cell : String) (conn : Conn) (sem : Nat)
    (p : String) (bs : List Nat) :
    (NewStatsConn cell conn sem).isReadOnly = false ∧
    (NewStatsConn cell conn sem).cell = cell ∧
    (NewStatsConn cell conn sem).conn = conn ∧
    (NewStatsConn cell conn sem).readSem = sem ∧
    connCalls ((NewStatsConn cell conn sem).create p bs).2 = ["Create"] := by
  refine ⟨rfl, rfl, rfl, rfl, ?_⟩
  simp [NewStatsConn, StatsConn.create, connCalls_writeTrace]

/-- Claim C10: the read-only error raised by a lock variant names the resolved
metrics label, not the public entry point — TryLock under the read-only flag
returns an error naming "Lock", LockName one naming "LockName", and
LockWithTTL with nonzero ttl one naming "LockWithTTL". -/
theorem claim_C10_read_only_error_label (st : StatsConn) (h : st.readOnly = true)
    (p c : String) (ttl : Int) (httl : ttl ≠ 0) :
    (st.tryLock p c).1.2 = some (Err.readOnlyErr "Lock" p) ∧
    (st.lockName p c).1.2 = some (Err.readOnlyErr "LockName" p) ∧
    (st.lockWithTTL p c ttl).1.2 = some (Err.readOnlyErr "LockWithTTL" p) := by
  refine ⟨?_, ?_, ?_⟩ <;>
    simp [StatsConn.tryLock, StatsConn.lockName, StatsConn.lockWithTTL,
      StatsConn.internalLock, h, httl]

/-- Witness for C10 at the concrete read-only facade `roSt` with ttl = 5. -/
theorem claim_C10_read_only_error_label_witness :
    (roSt.readOnly = true ∧ (5 : Int) ≠ 0) ∧
    ((roSt.tryLock "/p" "me").1.2 = some (Err.readOnlyErr "Lock" "/p") ∧
    (roSt.lockName "/p" "me").1.2 = some (Err.readOnlyErr "LockName" "/p") ∧
    (roSt.lockWithTTL "/p" "me" 5).1.2 = some (Err.readOnlyErr "LockWithTTL" "/p")) :=
  ⟨⟨rfl, by decide⟩, claim_C10_read_only_error_label roSt rfl "/p" "me" 5 (by decide)⟩

end StatsConnModel
